import Mathlib

/-!
Shallow embedding of the HC-SR04 GPIO character-device driver
(`src/lib.rs`).  Real time is modelled by rational numbers of seconds
(the spec's "mock edge source yielding scripted (edge-type, timestamp)
pairs"), `f64` arithmetic by exact rational arithmetic, and the GPIO
collaborator by explicit success flags and an event list.  The wall
clock starts at 0 at the `start_time = Instant::now()` of a measurement,
and event timestamps are the instants at which the corresponding edge
events become readable on the line.
-/

namespace HcSr04Lib

/-- `enum HcSr04Error` from `src/lib.rs` lines 7-13. -/
inductive HcSr04Error where
  | Io
  | Init
  | LineEventHandleRequest
  | PollFd
deriving DecidableEq, Repr

/-- `enum DistanceUnit` (lines 15-19): a magnitude tagged with mm/cm/m. -/
inductive DistanceUnit where
  | Mm (val : ℚ)
  | Cm (val : ℚ)
  | Meter (val : ℚ)
deriving DecidableEq, Repr

/-- `DistanceUnit::write_val` (lines 21-27): overwrite the magnitude, keep the tag. -/
def DistanceUnit.write_val : DistanceUnit → ℚ → DistanceUnit
  | .Mm _, n => .Mm n
  | .Cm _, n => .Cm n
  | .Meter _, n => .Meter n

/-- `DistanceUnit::to_val` (lines 29-35): read the magnitude. -/
def DistanceUnit.to_val : DistanceUnit → ℚ
  | .Mm v => v
  | .Cm v => v
  | .Meter v => v

/-- `enum VelocityUnit` (lines 38-41). -/
inductive VelocityUnit where
  | MetersPerSecs (val : ℚ)
  | CentimeterPerSecs (val : ℚ)
deriving DecidableEq, Repr

/-- `VelocityUnit::to_val` (lines 43-48). -/
def VelocityUnit.to_val : VelocityUnit → ℚ
  | .MetersPerSecs v => v
  | .CentimeterPerSecs v => v

/-- `const SPEED_OF_SOUND` (line 51). -/
def SPEED_OF_SOUND : VelocityUnit := .MetersPerSecs 343

/-- `const DEFAULT_TIMEOUT_MICROSECS: u64 = 8746` (line 5). -/
def DEFAULT_TIMEOUT_MICROSECS : ℕ := 8746

/-- `i32::MAX`. -/
def i32_MAX : ℕ := 2147483647

/-- `timeout.as_millis().min(i32::MAX as u128) as i32` from
`poll_with_timeout` (line 67): a duration (nonnegative rational seconds)
is truncated to whole milliseconds and capped at `i32::MAX`. -/
def timeout_ms (d : ℚ) : ℕ := min (Int.toNat ⌊d * 1000⌋) i32_MAX

/-- The instant up to which a `libc::poll` started at `now` with budget
`d` keeps waiting for an event (lines 60-76): `poll` blocks for
`timeout_ms d` whole milliseconds. -/
def poll_deadline (now d : ℚ) : ℚ := now + (timeout_ms d : ℚ) / 1000

/-- `EventType` of `gpio_cdev` as used at lines 164 and 174. -/
inductive EventType where
  | RisingEdge
  | FallingEdge
deriving DecidableEq, Repr

/-- A scripted edge event of the mock edge source: edge type plus the
instant (seconds since `start_time`) at which it becomes readable. -/
structure EdgeEvent where
  event_type : EventType
  time : ℚ
deriving DecidableEq, Repr

/-- Models `Duration::from_secs_f64` as called at line 85: by its `std`
contract it panics when the seconds value is negative; `none` models
that panic, `some` the constructed duration. -/
def duration_from_secs (x : ℚ) : Option ℚ :=
  if x < 0 then none else some x

/-- `range_to_timeout` (lines 79-86).  The outer `Option` models the
possible `Duration::from_secs_f64` panic; inside it, `Except` mirrors
the Rust `Result<Duration, String>`. -/
def range_to_timeout (range : DistanceUnit) : Option (Except String ℚ) :=
  match range with
  | .Meter val => (duration_from_secs ((val / 2) / SPEED_OF_SOUND.to_val)).map .ok
  | .Cm val => (duration_from_secs ((val / 200) / SPEED_OF_SOUND.to_val)).map .ok
  | .Mm _ => some (.error "range must be in m or cm")

/-- `struct HcSr04` (lines 53-58), restricted to the state the
measurement logic reads: the configured minimum-distance threshold.
The two GPIO lines are modelled by the explicit success flags and the
scripted event list passed to `dist`. -/
structure HcSr04 where
  dist_threshold : DistanceUnit

/-- A level written to the trigger line. -/
inductive Level where
  | low
  | high
deriving DecidableEq, Repr

/-- One observable action on the trigger line during the pulse
sequence of `dist` (lines 121-138). -/
inductive TrigAction where
  | set (l : Level)
  | hold (micros : ℕ)
deriving DecidableEq, Repr

/-- The trigger-pulse phase of `dist` (lines 121-138).  `ok1 ok2 ok3`
say whether the three `set_value` calls succeed.  Returns the list of
line actions actually performed, in order, and `some Io` when a failed
`set_value` aborted the measurement (`return Err(HcSr04Error::Io)`). -/
def triggerPulse (ok1 ok2 ok3 : Bool) : List TrigAction × Option HcSr04Error :=
  if !ok1 then ([], some .Io)
  else if !ok2 then ([.set .low, .hold 2], some .Io)
  else if !ok3 then ([.set .low, .hold 2, .set .high, .hold 10], some .Io)
  else ([.set .low, .hold 2, .set .high, .hold 10, .set .low], none)

/-- `effective_timeout` (lines 155-158): twice the caller's timeout, or
`Duration::from_micros(DEFAULT_TIMEOUT_MICROSECS)` when none given. -/
def effective_timeout : Option ℚ → ℚ
  | some val => 2 * val
  | none => (DEFAULT_TIMEOUT_MICROSECS : ℚ) / 1000000

/-- `effective_timeout.saturating_sub(start_time.elapsed())` (line 169):
the remaining budget, clamped at zero (`Duration` subtraction
saturates). -/
def remaining_budget (effT elapsed : ℚ) : ℚ := max 0 (effT - elapsed)

/-- `dist_threshold` conversion to centimeters (lines 178-182). -/
def threshold_cm : DistanceUnit → ℚ
  | .Cm val => val
  | .Mm val => val / 10
  | .Meter val => val * 100

/-- State after the first edge wait of `dist`: the recorded `tx_time`,
the current instant, and the not-yet-consumed events. -/
structure Wait1Out where
  tx_time : ℚ
  now : ℚ
  rest : List EdgeEvent
deriving DecidableEq, Repr

/-- First edge wait of `dist` (lines 160-167): poll the event fd with
the full effective timeout (`Err(PollFd)` when nothing is readable by
the deadline), read the next event, and record its arrival instant as
`tx_time` only when it is a rising edge; otherwise `tx_time` keeps its
initialisation value `Instant::now()` from line 142, i.e. instant 0. -/
def wait1 (events : List EdgeEvent) (effT : ℚ) : Except HcSr04Error Wait1Out :=
  match events with
  | [] => .error .PollFd
  | e :: rest =>
    if poll_deadline 0 effT < e.time then .error .PollFd
    else
      let now := max 0 e.time
      .ok ⟨if e.event_type = .RisingEdge then now else 0, now, rest⟩

/-- Second edge wait of `dist` (lines 169-189): poll with the remaining
budget, read the next event; on a falling edge compute
`tof = Instant::now() - tx_time` and
`dist = 50.0*(SPEED_OF_SOUND.to_val() * tof.as_secs_f64())`, then apply
the threshold filter (`Ok(None)` when strictly below); any other edge
type leaves `dist` at `None`, so the function returns `Ok(None)`. -/
def wait2 : Wait1Out → ℚ → ℚ → Except HcSr04Error (Option ℚ)
  | ⟨_, _, []⟩, _, _ => .error .PollFd
  | ⟨tx_time, now, e :: _⟩, effT, thr =>
    let remaining := remaining_budget effT (now - 0)
    if poll_deadline now remaining < e.time then .error .PollFd
    else
      let now2 := max now e.time
      if e.event_type = .FallingEdge then
        let tof := now2 - tx_time
        let d := 50 * (SPEED_OF_SOUND.to_val * tof)
        if d < thr then .ok none else .ok (some d)
      else .ok none

/-- Propagation of an `Err` out of a phase of `dist` (the early
`return Err(..)` pattern of the Rust). -/
def passErr : Except HcSr04Error Wait1Out →
    (Wait1Out → Except HcSr04Error (Option ℚ)) → Except HcSr04Error (Option ℚ)
  | .error e, _ => .error e
  | .ok w, f => f w

/-- `HcSr04::dist` (lines 120-190).  `ok1 ok2 ok3` are the outcomes of
the three trigger `set_value` calls, `subOk` the outcome of the
per-measurement `Line::events` subscription (lines 144-152), `events`
the scripted edge events of the echo line (timestamps in seconds since
`start_time`, in arrival order), `timeout` the caller's optional
timeout. -/
def dist (sensor : HcSr04) (ok1 ok2 ok3 subOk : Bool)
    (events : List EdgeEvent) (timeout : Option ℚ) :
    Except HcSr04Error (Option ℚ) :=
  if !ok1 then .error .Io
  else if !ok2 then .error .Io
  else if !ok3 then .error .Io
  else if !subOk then .error .LineEventHandleRequest
  else
    let effT := effective_timeout timeout
    passErr (wait1 events effT)
      (fun w => wait2 w effT (threshold_cm sensor.dist_threshold))

/-- The `match res { Some(res) => Ok(..), None => Err(Io) }` shared by
the three unit accessors (lines 193-217): `f` builds the fresh
unit-tagged value from the internally computed centimeter value. -/
def unit_view (f : ℚ → DistanceUnit) :
    Except HcSr04Error (Option ℚ) → Except HcSr04Error DistanceUnit
  | .error e => .error e
  | .ok (some res) => .ok (f res)
  | .ok none => .error .Io

/-- `HcSr04::dist_meter` (lines 193-199). -/
def dist_meter (sensor : HcSr04) (ok1 ok2 ok3 subOk : Bool)
    (events : List EdgeEvent) (timeout : Option ℚ) :
    Except HcSr04Error DistanceUnit :=
  unit_view (fun res => .Meter (res / 100))
    (dist sensor ok1 ok2 ok3 subOk events timeout)

/-- `HcSr04::dist_cm` (lines 202-208). -/
def dist_cm (sensor : HcSr04) (ok1 ok2 ok3 subOk : Bool)
    (events : List EdgeEvent) (timeout : Option ℚ) :
    Except HcSr04Error DistanceUnit :=
  unit_view (fun res => .Cm res)
    (dist sensor ok1 ok2 ok3 subOk events timeout)

/-- `HcSr04::dist_mm` (lines 211-217). -/
def dist_mm (sensor : HcSr04) (ok1 ok2 ok3 subOk : Bool)
    (events : List EdgeEvent) (timeout : Option ℚ) :
    Except HcSr04Error DistanceUnit :=
  unit_view (fun res => .Mm (10 * res))
    (dist sensor ok1 ok2 ok3 subOk events timeout)

/-- The two edge tags are distinct (used to evaluate the edge-type tests
of `wait1` and `wait2`). -/
theorem fallingEdge_eq_risingEdge_iff_false :
    (EventType.FallingEdge = EventType.RisingEdge) = False := by simp

/-- The two edge tags are distinct, other direction. -/
theorem risingEdge_eq_fallingEdge_iff_false :
    (EventType.RisingEdge = EventType.FallingEdge) = False := by simp

/-- C3: the total timeout budget is twice the caller-supplied timeout
when one is supplied and exactly 8746 microseconds otherwise, and the
second-wait budget is the total budget minus the elapsed time, clamped
to zero when already exceeded. -/
theorem C3_timeout_budget :
    (∀ t : ℚ, effective_timeout (some t) = 2 * t) ∧
    effective_timeout none = 8746 / 1000000 ∧
    (∀ T e : ℚ, e ≤ T → remaining_budget T e = T - e) ∧
    (∀ T e : ℚ, T ≤ e → remaining_budget T e = 0) ∧
    (∀ T e : ℚ, 0 ≤ remaining_budget T e) := by
  refine ⟨fun t => rfl, rfl, ?_, ?_, ?_⟩
  · intro T e h
    exact max_eq_right (by linarith)
  · intro T e h
    exact max_eq_left (by linarith)
  · intro T e
    exact le_max_left 0 (T - e)

/-- C3 witness: the budget formulas evaluated at concrete inputs. -/
theorem C3_timeout_budget_witness :
    effective_timeout (some (3 / 1000)) = 6 / 1000 ∧
    effective_timeout none = 8746 / 1000000 ∧
    ((3 : ℚ) / 1000 ≤ 6 / 1000 ∧ remaining_budget (6 / 1000) (3 / 1000) = 3 / 1000) ∧
    ((6 : ℚ) / 1000 ≤ 9 / 1000 ∧ remaining_budget (6 / 1000) (9 / 1000) = 0) := by
  refine ⟨?_, C3_timeout_budget.2.1, ⟨by norm_num, ?_⟩, ⟨by norm_num, ?_⟩⟩
  · rw [C3_timeout_budget.1 (3 / 1000)]; norm_num
  · rw [C3_timeout_budget.2.2.1 (6 / 1000) (3 / 1000) (by norm_num)]; norm_num
  · exact C3_timeout_budget.2.2.2.1 (6 / 1000) (9 / 1000) (by norm_num)

/-- C5: every measurement drives the trigger line through exactly
low, hold 2 us, high, hold 10 us, low, in that order; a failed
`set_value` aborts immediately with `Io`, performing no further step of
the sequence, and the measurement never reaches the echo waits. -/
theorem C5_trigger_pulse :
    triggerPulse true true true =
      ([.set .low, .hold 2, .set .high, .hold 10, .set .low], none) ∧
    (∀ o2 o3 : Bool, triggerPulse false o2 o3 = ([], some .Io)) ∧
    (∀ o3 : Bool, triggerPulse true false o3 = ([.set .low, .hold 2], some .Io)) ∧
    triggerPulse true true false =
      ([.set .low, .hold 2, .set .high, .hold 10], some .Io) ∧
    (∀ (thr : DistanceUnit) (o1 o2 o3 s : Bool)
        (evs : List EdgeEvent) (tm : Option ℚ),
      (triggerPulse o1 o2 o3).2 = some HcSr04Error.Io →
      dist ⟨thr⟩ o1 o2 o3 s evs tm = .error .Io) := by
  refine ⟨rfl, fun o2 o3 => rfl, fun o3 => rfl, rfl, ?_⟩
  intro thr o1 o2 o3 s evs tm h
  cases o1 <;> cases o2 <;> cases o3 <;>
    first
      | (exfalso; simp [triggerPulse] at h; done)
      | simp [dist]

/-- C5 witness: a failing first `set_value` aborts the measurement with
`Io` before any echo wait. -/
theorem C5_trigger_pulse_witness :
    (triggerPulse false true true).2 = some HcSr04Error.Io ∧
    dist ⟨.Cm 0⟩ false true true true [⟨.RisingEdge, 1 / 1000⟩] none =
      .error .Io :=
  ⟨by simp [triggerPulse],
   C5_trigger_pulse.2.2.2.2 (.Cm 0) false true true true
     [⟨.RisingEdge, 1 / 1000⟩] none (by simp [triggerPulse])⟩

/-- C6 counterexample: `range_to_timeout` does not return a timeout for
every meter-tagged input; on `Meter (-686)` the computed seconds value
is negative and `Duration::from_secs_f64` panics (modelled `none`)
instead of yielding `(-686 / 2) / 343`. -/
theorem C6_counterexample :
    range_to_timeout (.Meter (-686)) = none ∧
    range_to_timeout (.Meter (-686)) ≠
      some (.ok (((-686 : ℚ) / 2) / SPEED_OF_SOUND.to_val)) := by
  have h1 : range_to_timeout (.Meter (-686)) = none := by
    norm_num [range_to_timeout, duration_from_secs, SPEED_OF_SOUND,
      VelocityUnit.to_val]
  exact ⟨h1, by rw [h1]; simp⟩

/-- C6 amended: for every nonnegative magnitude, `range_to_timeout`
returns `(v / 2) / 343` seconds for meters and `(v / 200) / 343`
seconds for centimeters, the two agree under `v` cm = `v / 100` m, and
a millimeter-tagged range of any magnitude is rejected with the
invalid-unit error. -/
theorem C6_range_to_timeout (v : ℚ) (hv : 0 ≤ v) :
    range_to_timeout (.Meter v) =
      some (.ok ((v / 2) / SPEED_OF_SOUND.to_val)) ∧
    range_to_timeout (.Cm v) =
      some (.ok ((v / 200) / SPEED_OF_SOUND.to_val)) ∧
    (∀ w : ℚ, range_to_timeout (.Mm w) =
      some (.error ("range must be in m or cm"))) ∧
    range_to_timeout (.Cm v) = range_to_timeout (.Meter (v / 100)) := by
  have h343 : SPEED_OF_SOUND.to_val = 343 := rfl
  have hA : (0 : ℚ) ≤ (v / 2) / 343 :=
    div_nonneg (div_nonneg hv (by norm_num)) (by norm_num)
  have hB : (0 : ℚ) ≤ (v / 200) / 343 :=
    div_nonneg (div_nonneg hv (by norm_num)) (by norm_num)
  have hC : (0 : ℚ) ≤ (v / 100 / 2) / 343 :=
    div_nonneg (div_nonneg (div_nonneg hv (by norm_num)) (by norm_num))
      (by norm_num)
  refine ⟨?_, ?_, fun w => rfl, ?_⟩
  · simp only [range_to_timeout, duration_from_secs, h343]
    rw [if_neg (not_lt.mpr hA)]
    rfl
  · simp only [range_to_timeout, duration_from_secs, h343]
    rw [if_neg (not_lt.mpr hB)]
    rfl
  · simp only [range_to_timeout, duration_from_secs, h343]
    rw [if_neg (not_lt.mpr hB), if_neg (not_lt.mpr hC)]
    norm_num
    ring

/-- C6 witness: the amended equations evaluated at magnitude 686. -/
theorem C6_range_to_timeout_witness :
    (0 : ℚ) ≤ 686 ∧
    range_to_timeout (.Meter 686) = some (.ok 1) ∧
    range_to_timeout (.Cm 686) = range_to_timeout (.Meter (686 / 100)) := by
  have h := C6_range_to_timeout 686 (by norm_num)
  refine ⟨by norm_num, ?_, h.2.2.2⟩
  rw [h.1]
  norm_num [SPEED_OF_SOUND, VelocityUnit.to_val]

/-- C7: from an internally computed centimeter value `x`, the meter
accessor returns a fresh `Meter (x / 100)`, the millimeter accessor a
fresh `Mm (10 * x)`, the centimeter accessor a fresh `Cm x`; the stored
centimeter value is recoverable unchanged from each view, and the
cm -> m -> cm round trip recovers `x` exactly. -/
theorem C7_unit_views (sensor : HcSr04) (o1 o2 o3 s : Bool)
    (evs : List EdgeEvent) (tm : Option ℚ) (x : ℚ)
    (h : dist sensor o1 o2 o3 s evs tm = .ok (some x)) :
    dist_meter sensor o1 o2 o3 s evs tm = .ok (.Meter (x / 100)) ∧
    dist_cm sensor o1 o2 o3 s evs tm = .ok (.Cm x) ∧
    dist_mm sensor o1 o2 o3 s evs tm = .ok (.Mm (10 * x)) ∧
    (DistanceUnit.Meter (x / 100)).to_val = x / 100 ∧
    (DistanceUnit.Mm (10 * x)).to_val = 10 * x ∧
    (DistanceUnit.Cm x).to_val = x ∧
    (DistanceUnit.Cm x).to_val / 100 * 100 = x := by
  refine ⟨?_, ?_, ?_, rfl, rfl, rfl, ?_⟩
  · simp [dist_meter, unit_view, h]
  · simp [dist_cm, unit_view, h]
  · simp [dist_mm, unit_view, h]
  · simp [DistanceUnit.to_val]

/-- C7 witness: the three unit views of the successful measurement with
rising edge at 1 ms and falling edge at 2 ms (17.15 cm). -/
theorem C7_unit_views_witness :
    dist ⟨.Cm 0⟩ true true true true
      [⟨.RisingEdge, 1 / 1000⟩, ⟨.FallingEdge, 2 / 1000⟩] none =
      .ok (some (343 / 20)) ∧
    dist_meter ⟨.Cm 0⟩ true true true true
      [⟨.RisingEdge, 1 / 1000⟩, ⟨.FallingEdge, 2 / 1000⟩] none =
      .ok (.Meter (343 / 20 / 100)) ∧
    dist_cm ⟨.Cm 0⟩ true true true true
      [⟨.RisingEdge, 1 / 1000⟩, ⟨.FallingEdge, 2 / 1000⟩] none =
      .ok (.Cm (343 / 20)) ∧
    dist_mm ⟨.Cm 0⟩ true true true true
      [⟨.RisingEdge, 1 / 1000⟩, ⟨.FallingEdge, 2 / 1000⟩] none =
      .ok (.Mm (10 * (343 / 20))) :=
  have heval : dist ⟨.Cm 0⟩ true true true true
      [⟨.RisingEdge, 1 / 1000⟩, ⟨.FallingEdge, 2 / 1000⟩] none =
      .ok (some (343 / 20)) := by
    norm_num [dist, wait1, wait2, passErr, effective_timeout, remaining_budget,
      threshold_cm, poll_deadline, timeout_ms, i32_MAX, SPEED_OF_SOUND,
      VelocityUnit.to_val, DEFAULT_TIMEOUT_MICROSECS]
    norm_num [show Int.toNat 8 = 8 from rfl, show Int.toNat 7 = 7 from rfl]
  have h := C7_unit_views ⟨.Cm 0⟩ true true true true
    [⟨.RisingEdge, 1 / 1000⟩, ⟨.FallingEdge, 2 / 1000⟩] none (343 / 20) heval
  ⟨heval, h.1, h.2.1, h.2.2.1⟩

/-- C10: `poll_with_timeout` truncates its budget to whole
milliseconds capped at `i32::MAX`; any budget under one millisecond
polls for zero time, the 8746-microsecond default polls for exactly 8
milliseconds, and in general the blocked time never exceeds the budget
unless the cap is hit. -/
theorem C10_millisecond_truncation (dd : ℚ) (h0 : 0 ≤ dd) (hd : dd < 1 / 1000) :
    timeout_ms dd = 0 ∧
    (∀ now : ℚ, poll_deadline now dd = now) ∧
    timeout_ms ((8746 : ℚ) / 1000000) = 8 ∧
    (∀ b : ℚ, timeout_ms b ≤ i32_MAX) ∧
    (∀ b : ℚ, 0 ≤ b → ((timeout_ms b : ℚ) / 1000 ≤ b ∨ timeout_ms b = i32_MAX)) := by
  have hfloor : ⌊dd * 1000⌋ = 0 := by
    rw [Int.floor_eq_zero_iff]
    constructor
    · linarith
    · linarith
  refine ⟨?_, ?_, ?_, ?_, ?_⟩
  · simp [timeout_ms, hfloor]
  · intro now
    simp [poll_deadline, timeout_ms, hfloor]
  · norm_num [timeout_ms, i32_MAX]
    rfl
  · intro b
    exact min_le_right _ _
  · intro b hb
    rcases le_or_lt (Int.toNat ⌊b * 1000⌋) i32_MAX with hle | hlt
    · left
      rw [timeout_ms, min_eq_left hle]
      have hfl : (0 : ℤ) ≤ ⌊b * 1000⌋ := Int.floor_nonneg.mpr (by positivity)
      have : ((Int.toNat ⌊b * 1000⌋ : ℤ) : ℚ) ≤ b * 1000 := by
        rw [Int.toNat_of_nonneg hfl]
        exact_mod_cast Int.floor_le (b * 1000)
      rw [div_le_iff₀ (by norm_num : (0:ℚ) < 1000)]
      exact_mod_cast this
    · right
      rw [timeout_ms, min_eq_right hlt.le]

/-- C10 witness: the truncation facts at a half-millisecond budget. -/
theorem C10_millisecond_truncation_witness :
    (0 : ℚ) ≤ 1 / 2000 ∧ (1 : ℚ) / 2000 < 1 / 1000 ∧
    timeout_ms (1 / 2000) = 0 ∧
    poll_deadline (5 / 1000) (1 / 2000) = 5 / 1000 ∧
    timeout_ms ((8746 : ℚ) / 1000000) = 8 :=
  have h := C10_millisecond_truncation (1 / 2000) (by norm_num) (by norm_num)
  ⟨by norm_num, by norm_num, h.1, h.2.1 (5 / 1000), h.2.2.1⟩

/-- C9 (code bug): with edge sequence falling at 1 ms then falling at
2 ms -- no rising edge ever observed -- the measurement still succeeds
and `dist_cm` returns the numeric value 34.3 cm; the time-of-flight was
measured from the pre-subscription initialisation of `tx_time`
(instant 0), not from any rising edge, because line 142 initialises
`tx_time` to `Instant::now()` and line 175 uses it unconditionally. -/
theorem C9_fabricated_distance :
    dist ⟨.Cm 0⟩ true true true true
      [⟨.FallingEdge, 1 / 1000⟩, ⟨.FallingEdge, 2 / 1000⟩] none =
      .ok (some (343 / 10)) ∧
    dist_cm ⟨.Cm 0⟩ true true true true
      [⟨.FallingEdge, 1 / 1000⟩, ⟨.FallingEdge, 2 / 1000⟩] none =
      .ok (.Cm (343 / 10)) ∧
    (343 / 10 : ℚ) = 50 * (SPEED_OF_SOUND.to_val * ((2 / 1000 : ℚ) - 0)) := by
  have h1 : dist ⟨.Cm 0⟩ true true true true
      [⟨.FallingEdge, 1 / 1000⟩, ⟨.FallingEdge, 2 / 1000⟩] none =
      .ok (some (343 / 10)) := by
    norm_num [dist, wait1, wait2, passErr, effective_timeout, remaining_budget,
      threshold_cm, poll_deadline, timeout_ms, i32_MAX, SPEED_OF_SOUND,
      VelocityUnit.to_val, DEFAULT_TIMEOUT_MICROSECS,
      fallingEdge_eq_risingEdge_iff_false]
    norm_num [show Int.toNat 8 = 8 from rfl, show Int.toNat 7 = 7 from rfl]
  refine ⟨h1, ?_, ?_⟩
  · unfold dist_cm
    rw [h1]
    rfl
  · norm_num [SPEED_OF_SOUND, VelocityUnit.to_val]

/-- C2 counterexample: edge sequence falling at 1 ms, rising at 2 ms,
falling at 3 ms, all inside the default budget.  If the first wait
really kept waiting for a rising edge, the rising edge at 2 ms would be
the recorded pulse start and the falling edge at 3 ms would complete a
measurement of `50 * 343 * (1/1000)` cm.  Instead the falling edge at
1 ms consumes the first wait and the rising edge at 2 ms consumes the
second, so the measurement ends with `Ok(None)` and the third event is
never read. -/
theorem C2_counterexample :
    dist ⟨.Cm 0⟩ true true true true
      [⟨.FallingEdge, 1 / 1000⟩, ⟨.RisingEdge, 2 / 1000⟩,
        ⟨.FallingEdge, 3 / 1000⟩] none = .ok none ∧
    dist ⟨.Cm 0⟩ true true true true
      [⟨.FallingEdge, 1 / 1000⟩, ⟨.RisingEdge, 2 / 1000⟩,
        ⟨.FallingEdge, 3 / 1000⟩] none ≠
      .ok (some (50 * (SPEED_OF_SOUND.to_val * (1 / 1000)))) := by
  have h1 : dist ⟨.Cm 0⟩ true true true true
      [⟨.FallingEdge, 1 / 1000⟩, ⟨.RisingEdge, 2 / 1000⟩,
        ⟨.FallingEdge, 3 / 1000⟩] none = .ok none := by
    norm_num [dist, wait1, wait2, passErr, effective_timeout, remaining_budget,
      threshold_cm, poll_deadline, timeout_ms, i32_MAX, SPEED_OF_SOUND,
      VelocityUnit.to_val, DEFAULT_TIMEOUT_MICROSECS,
      fallingEdge_eq_risingEdge_iff_false, risingEdge_eq_fallingEdge_iff_false]
    norm_num [show Int.toNat 8 = 8 from rfl, show Int.toNat 7 = 7 from rfl,
      risingEdge_eq_fallingEdge_iff_false]
  exact ⟨h1, by rw [h1]; simp⟩

/-- C2 amended: a falling edge during the first wait is ignored without
error in the sense that `tx_time` is not recorded (it stays at the
initialisation instant 0), but the event is consumed and the machine
proceeds to the falling-edge wait rather than keep waiting for a rising
edge; a non-falling edge during the second wait is ignored without
error, but it too is consumed and the measurement completes with
`Ok(None)` rather than keep waiting for a falling edge. -/
theorem C2_edge_filtering (tm : Option ℚ) (t1 t2 tx : ℚ)
    (thrD : DistanceUnit) (rest rest2 : List EdgeEvent)
    (h0 : 0 ≤ t1)
    (hin1 : ¬ poll_deadline 0 (effective_timeout tm) < t1)
    (hin2 : ¬ poll_deadline t1
      (remaining_budget (effective_timeout tm) t1) < t2) :
    wait1 (⟨.FallingEdge, t1⟩ :: rest) (effective_timeout tm) =
      .ok ⟨0, t1, rest⟩ ∧
    wait2 ⟨tx, t1, ⟨.RisingEdge, t2⟩ :: rest2⟩ (effective_timeout tm)
      (threshold_cm thrD) = .ok none ∧
    dist ⟨thrD⟩ true true true true
      (⟨.FallingEdge, t1⟩ :: ⟨.RisingEdge, t2⟩ :: rest2) tm = .ok none := by
  have hw1 : ∀ r : List EdgeEvent,
      wait1 (⟨.FallingEdge, t1⟩ :: r) (effective_timeout tm) =
        .ok ⟨0, t1, r⟩ := by
    intro r
    simp only [wait1]
    rw [if_neg hin1]
    simp [fallingEdge_eq_risingEdge_iff_false, max_eq_right h0]
  have hw2 : ∀ (tx0 : ℚ) (r2 : List EdgeEvent),
      wait2 ⟨tx0, t1, ⟨.RisingEdge, t2⟩ :: r2⟩ (effective_timeout tm)
        (threshold_cm thrD) = .ok none := by
    intro tx0 r2
    simp only [wait2, sub_zero]
    rw [if_neg hin2]
    simp [risingEdge_eq_fallingEdge_iff_false]
  refine ⟨hw1 rest, hw2 tx rest2, ?_⟩
  simp [dist, passErr, hw1 (⟨.RisingEdge, t2⟩ :: rest2), hw2 0 rest2]

/-- C2 amended witness: falling then rising inside the default budget,
evaluated at 1 ms and 2 ms. -/
theorem C2_edge_filtering_witness :
    wait1 [⟨.FallingEdge, 1 / 1000⟩] (effective_timeout none) =
      .ok ⟨0, 1 / 1000, []⟩ ∧
    wait2 ⟨0, 1 / 1000, [⟨.RisingEdge, 2 / 1000⟩]⟩ (effective_timeout none)
      (threshold_cm (.Cm 0)) = .ok none ∧
    dist ⟨.Cm 0⟩ true true true true
      [⟨.FallingEdge, 1 / 1000⟩, ⟨.RisingEdge, 2 / 1000⟩] none = .ok none :=
  C2_edge_filtering none (1 / 1000) (2 / 1000) 0 (.Cm 0) [] []
    (by norm_num)
    (by norm_num [poll_deadline, effective_timeout, timeout_ms, i32_MAX,
      DEFAULT_TIMEOUT_MICROSECS, show Int.toNat 8 = 8 from rfl])
    (by norm_num [poll_deadline, effective_timeout, remaining_budget,
      timeout_ms, i32_MAX, DEFAULT_TIMEOUT_MICROSECS,
      show Int.toNat 8 = 8 from rfl, show Int.toNat 7 = 7 from rfl])

/-- C1: when the echo line delivers a rising edge at `t1` and then a
falling edge at `t2` (the simulated source: rising at `t + D1`, falling
at `t + D1 + D2`, so `t1 = D1` and `t2 = D1 + D2`), every distance a
successful measurement resolves equals
`50 * speed_of_sound * (t2 - t1) = 50 * 343 * D2` centimeters, the
time-of-flight being the elapsed time between the recorded rising-edge
instant and the falling-edge instant. -/
theorem C1_distance_formula (thrD : DistanceUnit) (tm : Option ℚ)
    (t1 t2 : ℚ) (rest : List EdgeEvent) (d : ℚ)
    (h0 : 0 ≤ t1) (h12 : t1 ≤ t2)
    (hok : dist ⟨thrD⟩ true true true true
      (⟨.RisingEdge, t1⟩ :: ⟨.FallingEdge, t2⟩ :: rest) tm = .ok (some d)) :
    d = 50 * (SPEED_OF_SOUND.to_val * (t2 - t1)) := by
  have hmax1 : (0 : ℚ) ⊔ t1 = t1 := max_eq_right h0
  have hmax2 : t1 ⊔ t2 = t2 := max_eq_right h12
  by_cases hc1 : poll_deadline 0 (effective_timeout tm) < t1
  · simp [dist, passErr, wait1, hc1] at hok
  · by_cases hc2 : poll_deadline t1
        (remaining_budget (effective_timeout tm) t1) < t2
    · simp [dist, passErr, wait1, wait2, hmax1, hc1, hc2] at hok
    · by_cases hc3 : 50 * (SPEED_OF_SOUND.to_val * (t2 - t1)) <
          threshold_cm thrD
      · simp [dist, passErr, wait1, wait2, hmax1, hmax2, hc1, hc2, hc3] at hok
      · simp [dist, passErr, wait1, wait2, hmax1, hmax2, hc1, hc2, hc3] at hok
        exact hok.symm

/-- C1 witness: rising at 1 ms, falling at 2 ms, default timeout; the
measurement succeeds with 17.15 cm = 50 * 343 * 0.001. -/
theorem C1_distance_formula_witness :
    (0 : ℚ) ≤ 1 / 1000 ∧ (1 : ℚ) / 1000 ≤ 2 / 1000 ∧
    dist ⟨.Cm 0⟩ true true true true
      [⟨.RisingEdge, 1 / 1000⟩, ⟨.FallingEdge, 2 / 1000⟩] none =
      .ok (some (343 / 20)) ∧
    (343 / 20 : ℚ) =
      50 * (SPEED_OF_SOUND.to_val * ((2 : ℚ) / 1000 - 1 / 1000)) :=
  have heval : dist ⟨.Cm 0⟩ true true true true
      [⟨.RisingEdge, 1 / 1000⟩, ⟨.FallingEdge, 2 / 1000⟩] none =
      .ok (some (343 / 20)) := by
    norm_num [dist, wait1, wait2, passErr, effective_timeout, remaining_budget,
      threshold_cm, poll_deadline, timeout_ms, i32_MAX, SPEED_OF_SOUND,
      VelocityUnit.to_val, DEFAULT_TIMEOUT_MICROSECS]
    norm_num [show Int.toNat 8 = 8 from rfl, show Int.toNat 7 = 7 from rfl]
  ⟨by norm_num, by norm_num, heval,
    C1_distance_formula (.Cm 0) none (1 / 1000) (2 / 1000) [] (343 / 20)
      (by norm_num) (by norm_num) heval⟩

/-- C4: the configured threshold is converted to centimeters
(millimeters / 10, meters * 100, centimeters unchanged); when a valid
falling edge is observed and the computed distance is strictly below
the converted threshold, `dist` yields `Ok(None)` and every
unit-specific accessor surfaces that as the `Io` error, never as a
numeric value. -/
theorem C4_threshold_policy (thrD : DistanceUnit) (tm : Option ℚ)
    (t1 t2 : ℚ)
    (h0 : 0 ≤ t1) (h12 : t1 ≤ t2)
    (hin1 : ¬ poll_deadline 0 (effective_timeout tm) < t1)
    (hin2 : ¬ poll_deadline t1
      (remaining_budget (effective_timeout tm) t1) < t2)
    (hlt : 50 * (SPEED_OF_SOUND.to_val * (t2 - t1)) < threshold_cm thrD) :
    (∀ v : ℚ, threshold_cm (.Mm v) = v / 10 ∧
      threshold_cm (.Meter v) = v * 100 ∧ threshold_cm (.Cm v) = v) ∧
    dist ⟨thrD⟩ true true true true
      [⟨.RisingEdge, t1⟩, ⟨.FallingEdge, t2⟩] tm = .ok none ∧
    dist_cm ⟨thrD⟩ true true true true
      [⟨.RisingEdge, t1⟩, ⟨.FallingEdge, t2⟩] tm = .error .Io ∧
    dist_meter ⟨thrD⟩ true true true true
      [⟨.RisingEdge, t1⟩, ⟨.FallingEdge, t2⟩] tm = .error .Io ∧
    dist_mm ⟨thrD⟩ true true true true
      [⟨.RisingEdge, t1⟩, ⟨.FallingEdge, t2⟩] tm = .error .Io := by
  have hmax1 : (0 : ℚ) ⊔ t1 = t1 := max_eq_right h0
  have hmax2 : t1 ⊔ t2 = t2 := max_eq_right h12
  have hdist : dist ⟨thrD⟩ true true true true
      [⟨.RisingEdge, t1⟩, ⟨.FallingEdge, t2⟩] tm = .ok none := by
    simp [dist, passErr, wait1, wait2, hmax1, hmax2, hin1, hin2, hlt]
  refine ⟨fun v => ⟨rfl, rfl, rfl⟩, hdist, ?_, ?_, ?_⟩
  · unfold dist_cm
    rw [hdist]
    rfl
  · unfold dist_meter
    rw [hdist]
    rfl
  · unfold dist_mm
    rw [hdist]
    rfl

/-- C4 witness: threshold 5 cm, rising at 1 ms, falling at 1.2 ms; the
computed distance 3.43 cm is below threshold, so `dist` reports no
measurement and `dist_cm` the `Io` error. -/
theorem C4_threshold_policy_witness :
    dist ⟨.Cm 5⟩ true true true true
      [⟨.RisingEdge, 1 / 1000⟩, ⟨.FallingEdge, 3 / 2500⟩] none = .ok none ∧
    dist_cm ⟨.Cm 5⟩ true true true true
      [⟨.RisingEdge, 1 / 1000⟩, ⟨.FallingEdge, 3 / 2500⟩] none =
      .error .Io :=
  have h := C4_threshold_policy (.Cm 5) none (1 / 1000) (3 / 2500)
    (by norm_num) (by norm_num)
    (by norm_num [poll_deadline, effective_timeout, timeout_ms, i32_MAX,
      DEFAULT_TIMEOUT_MICROSECS, show Int.toNat 8 = 8 from rfl])
    (by norm_num [poll_deadline, effective_timeout, remaining_budget,
      timeout_ms, i32_MAX, DEFAULT_TIMEOUT_MICROSECS,
      show Int.toNat 8 = 8 from rfl, show Int.toNat 7 = 7 from rfl])
    (by norm_num [SPEED_OF_SOUND, VelocityUnit.to_val, threshold_cm])
  ⟨h.2.1, h.2.2.1⟩

/-- C8: if no event is readable within the poll deadline of the
rising-edge wait the measurement fails with the poll-timeout error
`PollFd` and no distance is produced, and if a rising edge arrives but
no further event is readable within the remaining-budget deadline of
the falling-edge wait the measurement likewise fails with `PollFd`. -/
theorem C8_timeout_errors (thrD : DistanceUnit) (tm : Option ℚ) :
    dist ⟨thrD⟩ true true true true [] tm = .error .PollFd ∧
    (∀ (ty : EventType) (s : ℚ) (rest : List EdgeEvent),
      poll_deadline 0 (effective_timeout tm) < s →
      dist ⟨thrD⟩ true true true true (⟨ty, s⟩ :: rest) tm =
        .error .PollFd) ∧
    (∀ t1 : ℚ, 0 ≤ t1 → ¬ poll_deadline 0 (effective_timeout tm) < t1 →
      dist ⟨thrD⟩ true true true true [⟨.RisingEdge, t1⟩] tm =
        .error .PollFd) ∧
    (∀ (t1 t2 : ℚ) (ty2 : EventType) (rest : List EdgeEvent), 0 ≤ t1 →
      ¬ poll_deadline 0 (effective_timeout tm) < t1 →
      poll_deadline t1 (remaining_budget (effective_timeout tm) t1) < t2 →
      dist ⟨thrD⟩ true true true true
        (⟨.RisingEdge, t1⟩ :: ⟨ty2, t2⟩ :: rest) tm = .error .PollFd) := by
  refine ⟨by simp [dist, passErr, wait1], ?_, ?_, ?_⟩
  · intro ty s rest hlate
    simp [dist, passErr, wait1, hlate]
  · intro t1 ht1 hin
    have hmax1 : (0 : ℚ) ⊔ t1 = t1 := max_eq_right ht1
    simp [dist, passErr, wait1, wait2, hmax1, hin]
  · intro t1 t2 ty2 rest ht1 hin hlate
    have hmax1 : (0 : ℚ) ⊔ t1 = t1 := max_eq_right ht1
    simp [dist, passErr, wait1, wait2, hmax1, hin, hlate]

/-- C8 witness: with the default budget (poll deadline 8 ms), an empty
event queue, a first event at 9 ms, a lone rising edge, and a rising
edge at 1 ms followed by an event at 9 ms all end in `PollFd`. -/
theorem C8_timeout_errors_witness :
    dist ⟨.Cm 0⟩ true true true true [] none = .error .PollFd ∧
    dist ⟨.Cm 0⟩ true true true true [⟨.RisingEdge, 9 / 1000⟩] none =
      .error .PollFd ∧
    dist ⟨.Cm 0⟩ true true true true [⟨.RisingEdge, 1 / 1000⟩] none =
      .error .PollFd ∧
    dist ⟨.Cm 0⟩ true true true true
      [⟨.RisingEdge, 1 / 1000⟩, ⟨.FallingEdge, 9 / 1000⟩] none =
      .error .PollFd :=
  have h := C8_timeout_errors (.Cm 0) none
  ⟨h.1,
   h.2.1 .RisingEdge (9 / 1000) []
     (by norm_num [poll_deadline, effective_timeout, timeout_ms, i32_MAX,
       DEFAULT_TIMEOUT_MICROSECS, show Int.toNat 8 = 8 from rfl]),
   h.2.2.1 (1 / 1000) (by norm_num)
     (by norm_num [poll_deadline, effective_timeout, timeout_ms, i32_MAX,
       DEFAULT_TIMEOUT_MICROSECS, show Int.toNat 8 = 8 from rfl]),
   h.2.2.2 (1 / 1000) (9 / 1000) .FallingEdge [] (by norm_num)
     (by norm_num [poll_deadline, effective_timeout, timeout_ms, i32_MAX,
       DEFAULT_TIMEOUT_MICROSECS, show Int.toNat 8 = 8 from rfl])
     (by norm_num [poll_deadline, effective_timeout, remaining_budget,
       timeout_ms, i32_MAX, DEFAULT_TIMEOUT_MICROSECS,
       show Int.toNat 8 = 8 from rfl, show Int.toNat 7 = 7 from rfl])⟩

end HcSr04Lib
